import Mathlib

/-!
Shallow embedding of the installer asset code under verification:
`pkg/asset/cluster/cluster.go` (the cluster-provisioning asset) and
`pkg/asset/manifests/tectonic.go` (the manifest-assembly asset).

External effects (temp-directory creation, file writes, the terraform
subprocess, file reads, fetchers, injected marshal faults) are passed in
explicitly as environment values, so each Go function becomes a pure Lean
function from its inputs and environment to a result record that also
records the side effects (disk writes performed, whether the provisioning
tool was invoked, which errors were merely logged).
-/

namespace Installer

/-- A JSON value, as produced by the Go `encoding/json` marshaller for the
metadata types used here (strings, objects, arrays; `null` is unused by the
encoder but kept for totality of the decoder). -/
inductive Json where
  | str (s : String)
  | obj (fields : List (String × Json))
  | arr (elems : List Json)
  | null
deriving Repr

/-- Looks up the first field with the given key in a JSON object field list. -/
def lookupField : List (String × Json) → String → Option Json
  | [], _ => none
  | (k, v) :: rest, key => if k = key then some v else lookupField rest key

/-- Field access on a JSON value: `some` on an object that has the key. -/
def Json.getField : Json → String → Option Json
  | .obj fs, key => lookupField fs key
  | _, _ => none

/-! ## Cluster metadata types

Modelled from the spec: the `types.ClusterMetadata` family lives in
`pkg/types`, which is not under `src/`; the spec gives its shape as
`{clusterName, platformMetadata}` with a tagged variant over platform kinds
(region + identifying tag pairs for AWS, region + single identifier for
OpenStack, a connection URI for Libvirt), and the metadata file as a JSON
object with at most one platform key populated. -/

/-- Modelled from the spec: AWS platform metadata, a region plus a list of
cluster-identifying tag maps. -/
structure ClusterAWSPlatformMetadata where
  region : String
  identifier : List (List (String × String))
deriving Repr, DecidableEq

/-- Modelled from the spec: OpenStack platform metadata, a region plus a
single identifying tag map. -/
structure ClusterOpenStackPlatformMetadata where
  region : String
  identifier : List (String × String)
deriving Repr, DecidableEq

/-- Modelled from the spec: Libvirt platform metadata, a connection URI. -/
structure ClusterLibvirtPlatformMetadata where
  uri : String
deriving Repr, DecidableEq

/-- Modelled from the spec: the tagged variant over platform kinds; at most
one of the three is populated. -/
structure ClusterPlatformMetadata where
  aws : Option ClusterAWSPlatformMetadata
  openstack : Option ClusterOpenStackPlatformMetadata
  libvirt : Option ClusterLibvirtPlatformMetadata
deriving Repr, DecidableEq

/-- Modelled from the spec: the cluster metadata record, a cluster name plus
the platform variant. -/
structure ClusterMetadata where
  clusterName : String
  clusterPlatformMetadata : ClusterPlatformMetadata
deriving Repr, DecidableEq

/-! ## JSON codec for the metadata record

Models what `encoding/json` does with these types: a string map becomes a
JSON object of strings, the identifier list becomes an array of such
objects, and nil platform pointers are omitted (the spec says at most one
platform key is populated in the file). -/

/-- Encodes a Go `map[string]string` as a JSON object of strings. -/
def encodeStringMap (m : List (String × String)) : Json :=
  .obj (m.map fun p => (p.1, .str p.2))

/-- Encodes the AWS platform metadata variant. -/
def encodeAWS (a : ClusterAWSPlatformMetadata) : Json :=
  .obj [("Region", .str a.region), ("Identifier", .arr (a.identifier.map encodeStringMap))]

/-- Encodes the OpenStack platform metadata variant. -/
def encodeOpenStack (o : ClusterOpenStackPlatformMetadata) : Json :=
  .obj [("Region", .str o.region), ("Identifier", encodeStringMap o.identifier)]

/-- Encodes the Libvirt platform metadata variant. -/
def encodeLibvirt (l : ClusterLibvirtPlatformMetadata) : Json :=
  .obj [("URI", .str l.uri)]

/-- The JSON serialization of a cluster metadata record, as `json.Marshal`
produces it: a `ClusterName` string and a `ClusterPlatformMetadata` object
holding only the populated platform keys. -/
def marshalClusterMetadata (m : ClusterMetadata) : Json :=
  .obj [("ClusterName", .str m.clusterName),
        ("ClusterPlatformMetadata", .obj (
          (match m.clusterPlatformMetadata.aws with
           | some a => [("AWS", encodeAWS a)]
           | none => []) ++
          (match m.clusterPlatformMetadata.openstack with
           | some o => [("OpenStack", encodeOpenStack o)]
           | none => []) ++
          (match m.clusterPlatformMetadata.libvirt with
           | some l => [("Libvirt", encodeLibvirt l)]
           | none => [])))]

/-- Decodes a JSON object of strings back to a string map; fails on any
non-string value or non-object input. -/
def decodeStringMap : Json → Option (List (String × String))
  | .obj fs => decodePairs fs
  | _ => none
where
  /-- Decodes object fields whose values must all be strings. -/
  decodePairs : List (String × Json) → Option (List (String × String))
  | [] => some []
  | (k, v) :: rest =>
    match v with
    | .str s => (decodePairs rest).map fun r => (k, s) :: r
    | _ => none

/-- Decodes a JSON array of string maps. -/
def decodeStringMapList : List Json → Option (List (List (String × String)))
  | [] => some []
  | j :: rest =>
    match decodeStringMap j with
    | some m => (decodeStringMapList rest).map fun r => m :: r
    | none => none

/-- Decodes the AWS platform metadata variant. -/
def decodeAWS (j : Json) : Option ClusterAWSPlatformMetadata :=
  match j.getField "Region", j.getField "Identifier" with
  | some (.str r), some (.arr es) => (decodeStringMapList es).map fun ident => ⟨r, ident⟩
  | _, _ => none

/-- Decodes the OpenStack platform metadata variant. -/
def decodeOpenStack (j : Json) : Option ClusterOpenStackPlatformMetadata :=
  match j.getField "Region", j.getField "Identifier" with
  | some (.str r), some jm => (decodeStringMap jm).map fun ident => ⟨r, ident⟩
  | _, _ => none

/-- Decodes the Libvirt platform metadata variant. -/
def decodeLibvirt (j : Json) : Option ClusterLibvirtPlatformMetadata :=
  match j.getField "URI" with
  | some (.str u) => some ⟨u⟩
  | _ => none

/-- Decodes an optional field: absent is `some none`, present-but-malformed
is `none` (the whole unmarshal fails), present-and-valid is `some (some x)`. -/
def decodeOptField (fs : List (String × Json)) (key : String)
    (dec : Json → Option α) : Option (Option α) :=
  match lookupField fs key with
  | none => some none
  | some j => (dec j).map some

/-- Deserialization of a cluster metadata record from a JSON value, as
`json.Unmarshal` into `types.ClusterMetadata` does. -/
def unmarshalClusterMetadata (j : Json) : Option ClusterMetadata :=
  match j with
  | .obj fs =>
    match lookupField fs "ClusterName", lookupField fs "ClusterPlatformMetadata" with
    | some (.str name), some (.obj pfs) =>
      match decodeOptField pfs "AWS" decodeAWS,
            decodeOptField pfs "OpenStack" decodeOpenStack,
            decodeOptField pfs "Libvirt" decodeLibvirt with
      | some aws, some os, some lv => some ⟨name, ⟨aws, os, lv⟩⟩
      | _, _, _ => none
    | _, _ => none
  | _ => none

theorem decodePairs_encode (m : List (String × String)) :
    decodeStringMap.decodePairs (m.map fun p => (p.1, .str p.2)) = some m := by
  induction m with
  | nil => rfl
  | cons p rest ih => simp [decodeStringMap.decodePairs, ih]

theorem decodeStringMap_encode (m : List (String × String)) :
    decodeStringMap (encodeStringMap m) = some m := by
  simp [decodeStringMap, encodeStringMap, decodePairs_encode]

theorem decodeStringMapList_encode (ms : List (List (String × String))) :
    decodeStringMapList (ms.map encodeStringMap) = some ms := by
  induction ms with
  | nil => rfl
  | cons m rest ih => simp [decodeStringMapList, decodeStringMap_encode, ih]

theorem decodeAWS_encode (a : ClusterAWSPlatformMetadata) :
    decodeAWS (encodeAWS a) = some a := by
  simp [decodeAWS, encodeAWS, Json.getField, lookupField, decodeStringMapList_encode]

theorem decodeOpenStack_encode (o : ClusterOpenStackPlatformMetadata) :
    decodeOpenStack (encodeOpenStack o) = some o := by
  simp [decodeOpenStack, encodeOpenStack, Json.getField, lookupField, decodeStringMap_encode]

theorem decodeLibvirt_encode (l : ClusterLibvirtPlatformMetadata) :
    decodeLibvirt (encodeLibvirt l) = some l := by
  simp [decodeLibvirt, encodeLibvirt, Json.getField, lookupField]

/-- The JSON codec for cluster metadata records round-trips: decoding the
serialized form recovers the record exactly. -/
theorem unmarshal_marshal (m : ClusterMetadata) :
    unmarshalClusterMetadata (marshalClusterMetadata m) = some m := by
  obtain ⟨name, aws, os, lv⟩ := m
  cases aws <;> cases os <;> cases lv <;>
    simp [unmarshalClusterMetadata, marshalClusterMetadata, lookupField,
      decodeOptField, decodeAWS_encode, decodeOpenStack_encode, decodeLibvirt_encode]

/-! ## Install configuration

Modelled from the spec where the types live outside `src/`: only the fields
`cluster.go` reads are embedded (object-metadata name, cluster ID, and the
three nil-able platform configurations). -/

/-- AWS platform section of the install configuration. -/
structure AWSPlatform where
  region : String
deriving Repr, DecidableEq

/-- OpenStack platform section of the install configuration. -/
structure OpenStackPlatform where
  region : String
deriving Repr, DecidableEq

/-- Libvirt platform section of the install configuration. -/
structure LibvirtPlatform where
  uri : String
deriving Repr, DecidableEq

/-- The platform selection: each known platform is a nil-able pointer in Go. -/
structure Platform where
  aws : Option AWSPlatform
  openstack : Option OpenStackPlatform
  libvirt : Option LibvirtPlatform
deriving Repr, DecidableEq

/-- The fields of the install configuration that `Cluster.Generate` reads:
`ObjectMeta.Name`, `ClusterID` and the platform selection. -/
structure InstallConfig where
  name : String
  clusterID : String
  platform : Platform
deriving Repr, DecidableEq

/-! ## Files and the cluster asset -/

/-- The byte content of an artifact. Opaque byte blobs are `raw`; bytes that
are the JSON serialization of a value are `jsonDoc`; bytes that are the YAML
serialization of a manifest configuration object are `yamlCfg` (declared
with the Tectonic asset below via a parameter-free payload there). -/
inductive FileData where
  | raw (bytes : String)
  | jsonDoc (j : Json)
  | yamlCfg (ns name : String) (data : List (String × String))
deriving Repr

/-- An artifact: a relative filename plus byte content (`asset.File`). -/
structure File where
  filename : String
  data : FileData
deriving Repr

/-- The cluster-provisioning asset: holds the produced artifact list
(`Cluster.FileList`). -/
structure Cluster where
  fileList : List File
deriving Repr

/-- Name of the file where cluster metadata is stored (`metadataFileName`). -/
def metadataFileName : String := "metadata.json"

/-- Modelled from the spec: the fixed state filename constant
`terraform.StateFileName` lives in `pkg/terraform`, which is not under
`src/`; the spec only requires it to be a fixed name. -/
def stateFileName : String := "terraform.tfstate"

/-- The errors `Cluster.Generate` can produce, tagged by the step that
produced them; `applyErr`, `readStateErr` and `marshalErr` carry the
underlying message and stand for the wrapped errors of the source. -/
inductive GenError where
  | tempDirErr (e : String)
  | writeVarsErr (e : String)
  | noKnownPlatform
  | applyErr (e : String)
  | readStateErr (e : String)
  | marshalErr (e : String)
deriving Repr, DecidableEq

/-- The external effects consumed by `Cluster.Generate`, passed in
explicitly: the temp-directory creation result, the variables-file write
error (if any), the `terraform.Apply` result (state-file path and error),
the state-file read result, and an injected `json.Marshal` fault (`none`
means marshalling returns the canonical encoding). -/
structure ClusterGenEnv where
  tempDir : Except String String
  writeVarsErr : Option String
  applyResult : String × Option String
  readState : Except String String
  marshalFault : Option String
deriving Repr

/-- The observable outcome of one `Cluster.Generate` call: the final
artifact list, the returned error, whether `terraform.Apply` was invoked,
the disk writes performed, and the errors that were only logged. -/
structure ClusterGenOut where
  fileList : List File
  err : Option GenError
  applyInvoked : Bool
  diskWrites : List String
  logged : List GenError
deriving Repr

/-- Intermediate state threaded through the provisioning steps: artifact
list, pending returned error, logged errors. -/
structure BodyOut where
  fl : List File
  err : Option GenError
  logged : List GenError
deriving Repr

/-- The platform switch of `Cluster.Generate` (lines 88 to 114): builds the
metadata record with exactly one variant populated according to the first
configured platform, or `none` for the default no-known-platform branch. -/
def buildClusterMetadata (ic : InstallConfig) : Option ClusterMetadata :=
  match ic.platform.aws with
  | some a => some ⟨ic.name,
      ⟨some ⟨a.region,
        [[("tectonicClusterID", ic.clusterID)],
         [("kubernetes.io/cluster/" ++ ic.name, "owned")]]⟩, none, none⟩⟩
  | none =>
    match ic.platform.openstack with
    | some o => some ⟨ic.name,
        ⟨none, some ⟨o.region, [("tectonicClusterID", ic.clusterID)]⟩, none⟩⟩
    | none =>
      match ic.platform.libvirt with
      | some l => some ⟨ic.name, ⟨none, none, some ⟨l.uri⟩⟩⟩
      | none => none

/-- The deferred metadata step of `Cluster.Generate` (lines 71 to 86): on
marshal success the metadata artifact is appended and the pending error is
untouched; on marshal failure the marshal error is returned only when no
error is pending, otherwise it is logged. -/
def metadataDefer (st : BodyOut) (m : ClusterMetadata) (fault : Option String) : BodyOut :=
  match fault with
  | none => ⟨st.fl ++ [⟨metadataFileName, .jsonDoc (marshalClusterMetadata m)⟩], st.err, st.logged⟩
  | some e =>
    match st.err with
    | none => ⟨st.fl, some (.marshalErr e), st.logged⟩
    | some e0 => ⟨st.fl, some e0, st.logged ++ [.marshalErr e]⟩

/-- The provisioning steps of `Cluster.Generate` (lines 116 to 134): invoke
`terraform.Apply`, wrap its error as the pending error, then read the state
file; a successful read appends the state artifact even when apply failed; a
failed read becomes the pending error only when apply succeeded, otherwise
it is logged. -/
def Cluster.GenerateBody (env : ClusterGenEnv) (fl0 : List File) : BodyOut :=
  let applyErr := env.applyResult.2
  let err : Option GenError := applyErr.map .applyErr
  match env.readState with
  | .ok d => ⟨fl0 ++ [⟨stateFileName, .raw d⟩], err, []⟩
  | .error e2 =>
    match err with
    | none => ⟨fl0, some (.readStateErr e2), []⟩
    | some e0 => ⟨fl0, some e0, [.readStateErr e2]⟩

/-- Embedding of `Cluster.Generate`: temp-directory creation, the
variables-file write into it, the deferred metadata step, the platform
switch, and the provisioning steps, in source order. The variables-file
write is recorded in `diskWrites`; `applyInvoked` records whether
`terraform.Apply` ran. -/
def Cluster.Generate (c : Cluster) (ic : InstallConfig) (varsFileName : String)
    (env : ClusterGenEnv) : ClusterGenOut :=
  match env.tempDir with
  | .error e => ⟨c.fileList, some (.tempDirErr e), false, [], []⟩
  | .ok tmpDir =>
    match env.writeVarsErr with
    | some e => ⟨c.fileList, some (.writeVarsErr e), false, [], []⟩
    | none =>
      let writes := [tmpDir ++ "/" ++ varsFileName]
      match buildClusterMetadata ic with
      | none =>
        -- default switch branch: return the error; the deferred metadata
        -- step still runs, on the record holding only the cluster name
        let st := metadataDefer ⟨c.fileList, some .noKnownPlatform, []⟩
          ⟨ic.name, ⟨none, none, none⟩⟩ env.marshalFault
        ⟨st.fl, st.err, false, writes, st.logged⟩
      | some m =>
        let st := metadataDefer (Cluster.GenerateBody env c.fileList) m env.marshalFault
        ⟨st.fl, st.err, true, writes, st.logged⟩

/-- The fetcher outcome consumed by `Cluster.Load`: the `FetchByName` call
either fails with a not-exist error, fails with another error, or returns
the state file. -/
inductive FetchResult where
  | notExist
  | otherErr (e : String)
  | found (f : File)
deriving Repr

/-- Embedding of `Cluster.Load` (lines 147 to 157): not-exist is the normal
not-found outcome; any other fetch error propagates; a present state file
yields found together with the already-provisioned guard error. -/
def Cluster.Load (fetch : FetchResult) : Bool × Option String :=
  match fetch with
  | .notExist => (false, none)
  | .otherErr e => (false, some e)
  | .found _ => (true, some ("\"" ++ stateFileName ++ "\" already exisits.  There may already be a running cluster"))

/-- Embedding of `LoadMetadata` (lines 160 to 171): the directory is a map
from filename to content (`none` is a read error); the metadata file is read
and JSON-unmarshalled. Opaque `raw` bytes are not modelled as parseable
JSON, so they fail to unmarshal. -/
def LoadMetadata (dir : String → Option FileData) : Except String ClusterMetadata :=
  match dir metadataFileName with
  | none => .error ("failed to read " ++ metadataFileName ++ " file")
  | some (.jsonDoc j) =>
    match unmarshalClusterMetadata j with
    | some m => .ok m
    | none => .error ("failed to Unmarshal data from " ++ metadataFileName ++ " file to types.ClusterMetadata")
  | some _ => .error ("failed to Unmarshal data from " ++ metadataFileName ++ " file to types.ClusterMetadata")

/-! ## Manifest-assembly asset (`pkg/asset/manifests/tectonic.go`) -/

/-- Modelled from the spec: the structured configuration document
(`configurationObject`, defined elsewhere in the manifests package): a
namespaced key/value document with opaque string-valued fields. -/
structure ConfigurationObject where
  ns : String
  name : String
  data : List (String × String)
deriving Repr, DecidableEq

/-- Modelled from the spec: the `configMap` constructor of the manifests
package builds a configuration document from namespace, name and data. -/
def configMap (ns name : String) (data : List (String × String)) : ConfigurationObject :=
  ⟨ns, name, data⟩

/-- YAML deserialization of a configuration document, as `yaml.Unmarshal`
into `configurationObject`: bytes that are the serialization of a document
recover it; other bytes are not modelled as parseable documents. -/
def unmarshalCfg : FileData → Option ConfigurationObject
  | .yamlCfg ns name data => some ⟨ns, name, data⟩
  | _ => none

/-- The fixed subdirectory of the manifest files (`tectonicManifestDir`). -/
def tectonicManifestDir : String := "tectonic"

/-- `filepath.Join` on two relative components. -/
def filepathJoin (a b : String) : String := a ++ "/" ++ b

/-- The path of the structured configuration file (`tectonicConfigPath`). -/
def tectonicConfigPath : String := filepathJoin tectonicManifestDir "00_cluster-config.yaml"

/-- The manifest-assembly asset: the configuration document and the
produced artifact list (`Tectonic.TectonicConfig`, `Tectonic.FileList`). -/
structure Tectonic where
  tectonicConfig : Option ConfigurationObject
  fileList : List File
deriving Repr

/-- The template data rendered into the addon-operator and pull-secret
templates (`tectonicTemplateData`). -/
structure TectonicTemplateData where
  kubeAddonOperatorImage : String
  pullSecret : String
deriving Repr, DecidableEq

/-- The upstream asset outputs `Tectonic.Generate` reads: the pull secret
from the install configuration, the raw outputs of the cluster and machine
assets, and the single addon-configuration output file. -/
structure TectonicDeps where
  pullSecret : String
  clusterRaw : String
  masterMachinesRaw : String
  masterUserDataSecretsRaw : String
  workerMachineSetRaw : String
  workerUserDataSecretRaw : String
  addonFileData : String
deriving Repr

/-- The external helpers consumed by `Tectonic.Generate`: the template
renderer (`applyTemplateData`, defined elsewhere in the manifests package),
base64 encoding of the pull secret, and an injected `yaml.Marshal` fault
(`none` means marshalling returns the canonical serialization). -/
structure TectonicGenEnv where
  render : String → TectonicTemplateData → String
  b64 : String → String
  marshalFault : Option String

/-- Modelled from the spec: static reference content from the content
package (not under `src/`); the bytes are opaque to this development. -/
def contentBindingDiscovery : String := "content.BindingDiscovery"

/-- Modelled from the spec: static reference content, opaque bytes. -/
def contentAppVersionKubeAddon : String := "content.AppVersionKubeAddon"

/-- Modelled from the spec: the addon-operator template, opaque bytes. -/
def contentKubeAddonOperator : String := "content.KubeAddonOperator"

/-- Modelled from the spec: static reference content, opaque bytes. -/
def contentRoleAdmin : String := "content.RoleAdmin"

/-- Modelled from the spec: static reference content, opaque bytes. -/
def contentRoleUser : String := "content.RoleUser"

/-- Modelled from the spec: static reference content, opaque bytes. -/
def contentBindingAdmin : String := "content.BindingAdmin"

/-- Modelled from the spec: the pull-secret template, opaque bytes. -/
def contentPullTectonicSystem : String := "content.PullTectonicSystem"

/-- The fixed filename-to-content table of `Tectonic.Generate` (lines 66 to
79), in declaration order (Go iterates the map in unspecified order; the
spec declares artifact-list order insignificant here). -/
def assetData (deps : TectonicDeps) (env : TectonicGenEnv)
    (templateData : TectonicTemplateData) : List (String × FileData) :=
  [("99_binding-discovery.yaml", .raw contentBindingDiscovery),
   ("99_kube-addon-00-appversion.yaml", .raw contentAppVersionKubeAddon),
   ("99_kube-addon-01-operator.yaml", .raw (env.render contentKubeAddonOperator templateData)),
   ("99_openshift-cluster-api_cluster.yaml", .raw deps.clusterRaw),
   ("99_openshift-cluster-api_master-machines.yaml", .raw deps.masterMachinesRaw),
   ("99_openshift-cluster-api_master-user-data-secrets.yaml", .raw deps.masterUserDataSecretsRaw),
   ("99_openshift-cluster-api_worker-machineset.yaml", .raw deps.workerMachineSetRaw),
   ("99_openshift-cluster-api_worker-user-data-secret.yaml", .raw deps.workerUserDataSecretRaw),
   ("99_role-admin.yaml", .raw contentRoleAdmin),
   ("99_role-user.yaml", .raw contentRoleUser),
   ("99_tectonic-system-00-binding-admin.yaml", .raw contentBindingAdmin),
   ("99_tectonic-system-02-pull.json", .raw (env.render contentPullTectonicSystem templateData))]

/-- Embedding of `Tectonic.Generate` (lines 53 to 104): builds the template
data, assigns the configuration document, serializes it (a marshal failure
is returned as a wrapped fatal error with the file list untouched), then
replaces the file list with the configuration file followed by the table
entries under the fixed subdirectory. -/
def Tectonic.Generate (t : Tectonic) (deps : TectonicDeps) (env : TectonicGenEnv) :
    Tectonic × Option String :=
  let templateData : TectonicTemplateData :=
    ⟨"quay.io/coreos/kube-addon-operator-dev:375423a332f2c12b79438fc6a6da6e448e28ec0f",
     env.b64 deps.pullSecret⟩
  let cfg := configMap "tectonic-system" "cluster-config-v1" [("addon-config", deps.addonFileData)]
  let t := { t with tectonicConfig := some cfg }
  match env.marshalFault with
  | some e => (t, some ("failed to create tectonic-system/cluster-config-v1 configmap: " ++ e))
  | none =>
    let fl := ⟨tectonicConfigPath, .yamlCfg cfg.ns cfg.name cfg.data⟩ ::
      (assetData deps env templateData).map fun p => ⟨filepathJoin tectonicManifestDir p.1, p.2⟩
    ({ t with fileList := fl }, none)

/-- The loop of `Tectonic.Load` over the fetched files: unmarshals every
file named `tectonicConfigPath` into the configuration document (the last
one wins) and records whether one was seen; an unmarshal failure aborts the
load with a wrapped error. -/
def tectonicLoadLoop : List File → Option ConfigurationObject → Bool →
    Except String (Option ConfigurationObject × Bool)
  | [], cfg, found => .ok (cfg, found)
  | f :: rest, cfg, found =>
    if f.filename = tectonicConfigPath then
      match unmarshalCfg f.data with
      | none => .error "failed to unmarshal 00_cluster-config.yaml"
      | some c => tectonicLoadLoop rest (some c) true
    else tectonicLoadLoop rest cfg found

/-- Embedding of `Tectonic.Load` (lines 112 to 138): fetch by the fixed
subdirectory glob (a fetch error propagates, an empty match set is
not-found), scan for the configuration file, treat its absence as not-found,
and only on the found path assign the file list and configuration fields. -/
def Tectonic.Load (t : Tectonic) (fetched : Except String (List File)) :
    Tectonic × Bool × Option String :=
  match fetched with
  | .error e => (t, false, some e)
  | .ok fileList =>
    if fileList.length = 0 then (t, false, none)
    else
      match tectonicLoadLoop fileList none false with
      | .error e => (t, false, some e)
      | .ok (cfg, found) =>
        if found then ({ tectonicConfig := cfg, fileList := fileList }, true, none)
        else (t, false, none)

/-! ## Claim theorems for the cluster asset -/

/-- C1: in Cluster.Generate the provisioning-step error policy holds in all
three failure combinations: apply fails but the state read succeeds, so the
state artifact is still appended and the wrapped apply error is returned;
apply succeeds but the read fails, so the read error is returned; both fail,
so only the apply error is returned and the read failure is only logged. -/
theorem cluster_generate_provisioning_error_policy
    (c : Cluster) (ic : InstallConfig) (vfn tmp sf ae re d : String)
    (m : ClusterMetadata) (hm : buildClusterMetadata ic = some m) :
    ((Cluster.Generate c ic vfn ⟨.ok tmp, none, (sf, some ae), .ok d, none⟩).fileList =
        c.fileList ++ [⟨stateFileName, .raw d⟩,
          ⟨metadataFileName, .jsonDoc (marshalClusterMetadata m)⟩] ∧
      (Cluster.Generate c ic vfn ⟨.ok tmp, none, (sf, some ae), .ok d, none⟩).err =
        some (.applyErr ae)) ∧
    ((Cluster.Generate c ic vfn ⟨.ok tmp, none, (sf, none), .error re, none⟩).err =
        some (.readStateErr re)) ∧
    ((Cluster.Generate c ic vfn ⟨.ok tmp, none, (sf, some ae), .error re, none⟩).err =
        some (.applyErr ae) ∧
      (Cluster.Generate c ic vfn ⟨.ok tmp, none, (sf, some ae), .error re, none⟩).logged =
        [.readStateErr re]) := by
  refine ⟨⟨?_, ?_⟩, ?_, ?_, ?_⟩ <;>
    simp [Cluster.Generate, Cluster.GenerateBody, metadataDefer, hm]

/-- C1 witness: the three combinations evaluated at a concrete AWS
configuration and concrete environments. -/
theorem cluster_generate_provisioning_error_policy_witness :
    ((Cluster.Generate ⟨[]⟩ ⟨"c", "id", ⟨some ⟨"r"⟩, none, none⟩⟩ "terraform.tfvars"
        ⟨.ok "/tmp/t", none, ("s", some "apply failed"), .ok "state", none⟩).err =
      some (.applyErr "apply failed")) ∧
    ((Cluster.Generate ⟨[]⟩ ⟨"c", "id", ⟨some ⟨"r"⟩, none, none⟩⟩ "terraform.tfvars"
        ⟨.ok "/tmp/t", none, ("s", none), .error "read failed", none⟩).err =
      some (.readStateErr "read failed")) :=
  ⟨(cluster_generate_provisioning_error_policy ⟨[]⟩ ⟨"c", "id", ⟨some ⟨"r"⟩, none, none⟩⟩
      "terraform.tfvars" "/tmp/t" "s" "apply failed" "read failed" "state" _ rfl).1.2,
   (cluster_generate_provisioning_error_policy ⟨[]⟩ ⟨"c", "id", ⟨some ⟨"r"⟩, none, none⟩⟩
      "terraform.tfvars" "/tmp/t" "s" "apply failed" "read failed" "state" _ rfl).2.1⟩

/-- C2 counterexample: with no platform configured, Cluster.Generate does
return the no-known-platform error and does not invoke the provisioning
tool, but a file write (the variables file into the temp directory) has
already been performed before the platform check, so the claim that no file
write precedes the configuration check is false on the code. -/
theorem cluster_generate_no_platform_counterexample :
    (Cluster.Generate ⟨[]⟩ ⟨"c", "id", ⟨none, none, none⟩⟩ "terraform.tfvars"
        ⟨.ok "/tmp/x", none, ("", none), .error "no state", none⟩).err =
      some .noKnownPlatform ∧
    (Cluster.Generate ⟨[]⟩ ⟨"c", "id", ⟨none, none, none⟩⟩ "terraform.tfvars"
        ⟨.ok "/tmp/x", none, ("", none), .error "no state", none⟩).applyInvoked = false ∧
    (Cluster.Generate ⟨[]⟩ ⟨"c", "id", ⟨none, none, none⟩⟩ "terraform.tfvars"
        ⟨.ok "/tmp/x", none, ("", none), .error "no state", none⟩).diskWrites =
      ["/tmp/x/terraform.tfvars"] ∧
    (Cluster.Generate ⟨[]⟩ ⟨"c", "id", ⟨none, none, none⟩⟩ "terraform.tfvars"
        ⟨.ok "/tmp/x", none, ("", none), .error "no state", none⟩).diskWrites ≠ [] := by
  refine ⟨rfl, rfl, rfl, by decide⟩

/-- C2 amended: when the temp-directory creation and variables-file write
succeed and no known platform is configured, Cluster.Generate returns the
no-known-platform error and does not invoke the provisioning tool, but the
variables-file write into the temp directory does precede the platform
check (one disk write occurs; the temp directory is removed on return). -/
theorem cluster_generate_no_platform_amended
    (c : Cluster) (ic : InstallConfig) (vfn tmp : String) (env : ClusterGenEnv)
    (ht : env.tempDir = .ok tmp) (hw : env.writeVarsErr = none)
    (hp : buildClusterMetadata ic = none) :
    (Cluster.Generate c ic vfn env).err = some .noKnownPlatform ∧
    (Cluster.Generate c ic vfn env).applyInvoked = false ∧
    (Cluster.Generate c ic vfn env).diskWrites = [tmp ++ "/" ++ vfn] := by
  obtain ⟨td, wv, ar, rs, mf⟩ := env
  simp only at ht hw
  subst ht hw
  cases mf <;> simp [Cluster.Generate, metadataDefer, hp]

/-- C2 amended witness: the amended statement at a concrete configuration
with no platform and a concrete successful environment. -/
theorem cluster_generate_no_platform_amended_witness :
    (Cluster.Generate ⟨[]⟩ ⟨"c", "id", ⟨none, none, none⟩⟩ "terraform.tfvars"
        ⟨.ok "/tmp/x", none, ("", none), .error "no state", some "marshal boom"⟩).err =
      some .noKnownPlatform :=
  (cluster_generate_no_platform_amended ⟨[]⟩ ⟨"c", "id", ⟨none, none, none⟩⟩
    "terraform.tfvars" "/tmp/x"
    ⟨.ok "/tmp/x", none, ("", none), .error "no state", some "marshal boom"⟩
    rfl rfl rfl).1

/-- C3: when the provisioning tool, the state-file read and the metadata
serialization all succeed, Cluster.Generate returns no error and its file
list contains the state artifact under the fixed state filename followed by
the metadata artifact. -/
theorem cluster_generate_success_artifacts
    (c : Cluster) (ic : InstallConfig) (vfn tmp sf d : String)
    (m : ClusterMetadata) (hm : buildClusterMetadata ic = some m) :
    (Cluster.Generate c ic vfn ⟨.ok tmp, none, (sf, none), .ok d, none⟩).err = none ∧
    (Cluster.Generate c ic vfn ⟨.ok tmp, none, (sf, none), .ok d, none⟩).fileList =
      c.fileList ++ [⟨stateFileName, .raw d⟩,
        ⟨metadataFileName, .jsonDoc (marshalClusterMetadata m)⟩] := by
  constructor <;> simp [Cluster.Generate, Cluster.GenerateBody, metadataDefer, hm]

/-- C3 witness: the success path evaluated at a concrete Libvirt
configuration. -/
theorem cluster_generate_success_artifacts_witness :
    (Cluster.Generate ⟨[]⟩ ⟨"c", "id", ⟨none, none, some ⟨"qemu:///system"⟩⟩⟩
        "terraform.tfvars" ⟨.ok "/tmp/t", none, ("s", none), .ok "state", none⟩).err = none :=
  (cluster_generate_success_artifacts ⟨[]⟩ ⟨"c", "id", ⟨none, none, some ⟨"qemu:///system"⟩⟩⟩
    "terraform.tfvars" "/tmp/t" "s" "state" _ rfl).1

/-- C4: Cluster.Load reports not-found with no error when the state file
does not exist, and reports found together with the non-nil
already-provisioned guard error whenever the state file is present, so
presence is never a normal cache hit. -/
theorem cluster_load_guard :
    Cluster.Load .notExist = (false, none) ∧
    (∀ f : File, (Cluster.Load (.found f)).1 = true ∧ (Cluster.Load (.found f)).2 ≠ none) :=
  ⟨rfl, fun _ => ⟨rfl, by simp [Cluster.Load]⟩⟩

/-- C4 witness: both outcomes at concrete inputs. -/
theorem cluster_load_guard_witness :
    Cluster.Load .notExist = (false, none) ∧
    (Cluster.Load (.found ⟨stateFileName, .raw "state"⟩)).2 ≠ none :=
  ⟨cluster_load_guard.1, (cluster_load_guard.2 ⟨stateFileName, .raw "state"⟩).2⟩

/-- C5 counterexample: when the temp-directory creation fails,
Cluster.Generate returns before the deferred metadata step is registered, so
no metadata artifact is appended; the claim that the metadata record is
appended regardless of the temp-directory step outcome is false on the
code. -/
theorem cluster_metadata_defer_counterexample :
    (Cluster.Generate ⟨[]⟩ ⟨"c", "id", ⟨some ⟨"r"⟩, none, none⟩⟩ "terraform.tfvars"
        ⟨.error "boom", none, ("", none), .error "x", none⟩).err =
      some (.tempDirErr "boom") ∧
    (Cluster.Generate ⟨[]⟩ ⟨"c", "id", ⟨some ⟨"r"⟩, none, none⟩⟩ "terraform.tfvars"
        ⟨.error "boom", none, ("", none), .error "x", none⟩).fileList = [] :=
  ⟨rfl, rfl⟩

/-- C5 amended: once the temp-directory creation and the variables-file
write have succeeded, the deferred metadata step runs regardless of all
later outcomes (no-known-platform error, apply failure, read failure): on
marshal success the metadata artifact is appended and the pending error is
returned unchanged; on marshal failure the marshal error becomes the
returned error only when no earlier error occurred, otherwise the earlier
error is returned and the marshal error is only logged. -/
theorem cluster_metadata_defer_amended
    (c : Cluster) (ic : InstallConfig) (vfn tmp : String) (env : ClusterGenEnv)
    (ht : env.tempDir = .ok tmp) (hw : env.writeVarsErr = none) :
    ((env.marshalFault = none →
      (∃ m : ClusterMetadata,
        (Cluster.Generate c ic vfn env).fileList =
          (match buildClusterMetadata ic with
           | none => (⟨c.fileList, some .noKnownPlatform, []⟩ : BodyOut)
           | some _ => Cluster.GenerateBody env c.fileList).fl ++
            [⟨metadataFileName, .jsonDoc (marshalClusterMetadata m)⟩]) ∧
      (Cluster.Generate c ic vfn env).err =
        (match buildClusterMetadata ic with
         | none => (⟨c.fileList, some .noKnownPlatform, []⟩ : BodyOut)
         | some _ => Cluster.GenerateBody env c.fileList).err) ∧
    (∀ e, env.marshalFault = some e →
      (Cluster.Generate c ic vfn env).fileList =
        (match buildClusterMetadata ic with
         | none => (⟨c.fileList, some .noKnownPlatform, []⟩ : BodyOut)
         | some _ => Cluster.GenerateBody env c.fileList).fl ∧
      ((match buildClusterMetadata ic with
        | none => (⟨c.fileList, some .noKnownPlatform, []⟩ : BodyOut)
        | some _ => Cluster.GenerateBody env c.fileList).err = none →
        (Cluster.Generate c ic vfn env).err = some (.marshalErr e)) ∧
      (∀ e0, (match buildClusterMetadata ic with
        | none => (⟨c.fileList, some .noKnownPlatform, []⟩ : BodyOut)
        | some _ => Cluster.GenerateBody env c.fileList).err = some e0 →
        (Cluster.Generate c ic vfn env).err = some e0 ∧
        (Cluster.Generate c ic vfn env).logged =
          (match buildClusterMetadata ic with
           | none => (⟨c.fileList, some .noKnownPlatform, []⟩ : BodyOut)
           | some _ => Cluster.GenerateBody env c.fileList).logged ++ [.marshalErr e]))) := by
  obtain ⟨td, wv, ar, rs, mf⟩ := env
  simp only at ht hw
  subst ht hw
  cases hb : buildClusterMetadata ic with
  | none =>
    cases mf <;>
      simp [Cluster.Generate, metadataDefer, hb]
  | some m =>
    cases hst : Cluster.GenerateBody ⟨.ok tmp, none, ar, rs, mf⟩ c.fileList with
    | mk fl1 err1 lg1 =>
      cases mf with
      | none => simp [Cluster.Generate, metadataDefer, hb, hst]
      | some e =>
        cases err1 <;> simp [Cluster.Generate, metadataDefer, hb, hst]

/-- C5 amended witness: the amended statement at a concrete configuration
and environment with a marshal fault injected after an apply failure. -/
theorem cluster_metadata_defer_amended_witness :
    (Cluster.Generate ⟨[]⟩ ⟨"c", "id", ⟨some ⟨"r"⟩, none, none⟩⟩ "terraform.tfvars"
        ⟨.ok "/tmp/t", none, ("s", some "apply failed"), .error "read failed",
         some "marshal boom"⟩).err = some (.applyErr "apply failed") :=
  ((cluster_metadata_defer_amended ⟨[]⟩ ⟨"c", "id", ⟨some ⟨"r"⟩, none, none⟩⟩
      "terraform.tfvars" "/tmp/t"
      ⟨.ok "/tmp/t", none, ("s", some "apply failed"), .error "read failed",
       some "marshal boom"⟩ rfl rfl).2 "marshal boom" rfl).2.2 (.applyErr "apply failed")
    (by rfl) |>.1

/-- C6: for every metadata record Cluster.Generate produces (any platform
variant), reading a directory whose metadata file holds the serialized form
back through LoadMetadata recovers the record exactly, so in particular its
cluster name and platform variant. -/
theorem load_metadata_roundtrip
    (ic : InstallConfig) (m : ClusterMetadata) (_hm : buildClusterMetadata ic = some m)
    (dir : String → Option FileData)
    (hd : dir metadataFileName = some (.jsonDoc (marshalClusterMetadata m))) :
    LoadMetadata dir = .ok m := by
  simp [LoadMetadata, hd, unmarshal_marshal]

/-- C6 witness: the round trip at a concrete OpenStack configuration and a
concrete one-file directory. -/
theorem load_metadata_roundtrip_witness :
    LoadMetadata (fun f =>
      if f = metadataFileName then
        some (.jsonDoc (marshalClusterMetadata
          ⟨"c", ⟨none, some ⟨"r1", [("tectonicClusterID", "id")]⟩, none⟩⟩))
      else none) =
      .ok ⟨"c", ⟨none, some ⟨"r1", [("tectonicClusterID", "id")]⟩, none⟩⟩ :=
  load_metadata_roundtrip ⟨"c", "id", ⟨none, some ⟨"r1"⟩, none⟩⟩
    ⟨"c", ⟨none, some ⟨"r1", [("tectonicClusterID", "id")]⟩, none⟩⟩ rfl _ rfl

/-- The sample install configuration of the C7 scenario: AWS platform,
region us-east-1, cluster ID abc123, object-metadata name mycluster. -/
def awsSampleConfig : InstallConfig :=
  ⟨"mycluster", "abc123", ⟨some ⟨"us-east-1"⟩, none, none⟩⟩

/-- The outcome of Cluster.Generate on the C7 sample configuration with a
fully successful environment. -/
def awsSampleOut : ClusterGenOut :=
  Cluster.Generate ⟨[]⟩ awsSampleConfig "terraform.tfvars"
    ⟨.ok "/tmp/t", none, ("s", none), .ok "state", none⟩

/-- The metadata record Cluster.Generate builds for the C7 sample
configuration. -/
def awsSampleMetadata : ClusterMetadata :=
  ⟨"mycluster", ⟨some ⟨"us-east-1",
    [[("tectonicClusterID", "abc123")],
     [("kubernetes.io/cluster/mycluster", "owned")]]⟩, none, none⟩⟩

/-- C7: on the sample AWS configuration the metadata artifact produced by
Cluster.Generate serializes a record whose JSON has AWS Region us-east-1, an
identifier entry tagging tectonicClusterID abc123, and the ownership tag
kubernetes.io/cluster/mycluster owned. -/
theorem cluster_generate_aws_metadata_scenario :
    awsSampleOut.fileList.getLast? =
      some ⟨metadataFileName, .jsonDoc (marshalClusterMetadata awsSampleMetadata)⟩ ∧
    (((marshalClusterMetadata awsSampleMetadata).getField "ClusterPlatformMetadata").bind
        (fun p => (p.getField "AWS").bind (fun a => a.getField "Region"))) =
      some (.str "us-east-1") ∧
    (((marshalClusterMetadata awsSampleMetadata).getField "ClusterPlatformMetadata").bind
        (fun p => (p.getField "AWS").bind (fun a => a.getField "Identifier"))) =
      some (.arr [.obj [("tectonicClusterID", .str "abc123")],
                  .obj [("kubernetes.io/cluster/mycluster", .str "owned")]]) := by
  refine ⟨?_, rfl, rfl⟩
  rfl

/-! ## Claim theorems for the manifest-assembly asset -/

/-- The loop of Tectonic.Load leaves its accumulator untouched when no
fetched file carries the configuration-file path. -/
theorem tectonicLoadLoop_no_match (fl : List File) (cfg : Option ConfigurationObject)
    (b : Bool) (h : ∀ f ∈ fl, f.filename ≠ tectonicConfigPath) :
    tectonicLoadLoop fl cfg b = .ok (cfg, b) := by
  induction fl with
  | nil => rfl
  | cons f rest ih =>
    rw [tectonicLoadLoop, if_neg (h f (List.mem_cons_self f rest))]
    exact ih fun g hg => h g (List.mem_cons_of_mem f hg)

/-- Every name in the Tectonic.Generate table joins to a path distinct from
the configuration-file path. -/
theorem assetData_names_no_config (deps : TectonicDeps) (env : TectonicGenEnv)
    (td : TectonicTemplateData) :
    ∀ p ∈ assetData deps env td,
      filepathJoin tectonicManifestDir p.1 ≠ tectonicConfigPath := by
  intro p hp
  obtain ⟨p1, p2⟩ := p
  simp only [assetData, List.mem_cons, List.not_mem_nil, or_false, Prod.mk.injEq] at hp
  rcases hp with ⟨h1, _⟩|⟨h1, _⟩|⟨h1, _⟩|⟨h1, _⟩|⟨h1, _⟩|⟨h1, _⟩|⟨h1, _⟩|⟨h1, _⟩|⟨h1, _⟩|⟨h1, _⟩|⟨h1, _⟩|⟨h1, _⟩ <;>
    subst h1 <;> simp [filepathJoin, tectonicManifestDir, tectonicConfigPath]

/-- Every table entry of Tectonic.Generate lands under a filename distinct
from the configuration-file path. -/
theorem assetData_no_config (deps : TectonicDeps) (env : TectonicGenEnv)
    (td : TectonicTemplateData) :
    ∀ f ∈ (assetData deps env td).map
        (fun p => File.mk (filepathJoin tectonicManifestDir p.1) p.2),
      f.filename ≠ tectonicConfigPath := by
  intro f hf
  rcases List.mem_map.mp hf with ⟨p, hp, rfl⟩
  exact assetData_names_no_config deps env td p hp

/-- C8: Tectonic.Load reports not-found on an empty glob match, reports
not-found on a non-empty match set that holds no configuration file, and on
the file list Tectonic.Generate produced (marshal succeeding) reports found
with no error, returning exactly the generated asset, whose configuration
document is the one Generate built from the addon output. -/
theorem tectonic_load_cases :
    (∀ t : Tectonic, Tectonic.Load t (.ok []) = (t, false, none)) ∧
    (∀ (t : Tectonic) (fl : List File), fl ≠ [] →
      (∀ f ∈ fl, f.filename ≠ tectonicConfigPath) →
      Tectonic.Load t (.ok fl) = (t, false, none)) ∧
    (∀ (t0 t : Tectonic) (deps : TectonicDeps) (env : TectonicGenEnv),
      env.marshalFault = none →
      Tectonic.Load t (.ok (Tectonic.Generate t0 deps env).1.fileList) =
        ((Tectonic.Generate t0 deps env).1, true, none) ∧
      (Tectonic.Generate t0 deps env).1.tectonicConfig =
        some (configMap "tectonic-system" "cluster-config-v1"
          [("addon-config", deps.addonFileData)])) := by
  refine ⟨fun t => rfl, fun t fl hne hnc => ?_, fun t0 t deps env hmf => ?_⟩
  · rw [Tectonic.Load, if_neg (by simpa using hne), tectonicLoadLoop_no_match fl none false hnc]
    rfl
  · obtain ⟨r, b, mf⟩ := env
    simp only at hmf
    subst hmf
    constructor
    · rw [Tectonic.Generate]
      simp only
      rw [Tectonic.Load]
      rw [if_neg (by simp)]
      rw [tectonicLoadLoop, if_pos rfl]
      simp only [unmarshalCfg]
      rw [tectonicLoadLoop_no_match _ _ _ (assetData_no_config deps ⟨r, b, none⟩ _)]
      rfl
    · rfl

/-- C8 witness: the three outcomes at concrete inputs; the last conjunct
instantiates the generated-file-list case at a concrete dependency set. -/
theorem tectonic_load_cases_witness :
    Tectonic.Load ⟨none, []⟩ (.ok []) = (⟨none, []⟩, false, none) ∧
    Tectonic.Load ⟨none, []⟩ (.ok [⟨"tectonic/99_role-admin.yaml", .raw "x"⟩]) =
      (⟨none, []⟩, false, none) ∧
    (Tectonic.Generate ⟨none, []⟩ ⟨"ps", "c", "mm", "mu", "wm", "wu", "addon"⟩
        ⟨fun t _ => t, fun s => s, none⟩).1.tectonicConfig =
      some (configMap "tectonic-system" "cluster-config-v1" [("addon-config", "addon")]) :=
  ⟨tectonic_load_cases.1 ⟨none, []⟩,
   tectonic_load_cases.2.1 ⟨none, []⟩ [⟨"tectonic/99_role-admin.yaml", .raw "x"⟩]
     (by simp) (by intro f hf; simp at hf; subst hf; decide),
   (tectonic_load_cases.2.2 ⟨none, []⟩ ⟨none, []⟩ ⟨"ps", "c", "mm", "mu", "wm", "wu", "addon"⟩
     ⟨fun t _ => t, fun s => s, none⟩ rfl).2⟩

/-- C9: when serialization of the configuration document fails,
Tectonic.Generate returns the wrapped marshal error and leaves the output
file list unchanged (nothing partial is emitted). -/
theorem tectonic_generate_marshal_failure
    (t : Tectonic) (deps : TectonicDeps) (env : TectonicGenEnv) (e : String)
    (h : env.marshalFault = some e) :
    (Tectonic.Generate t deps env).2 =
      some ("failed to create tectonic-system/cluster-config-v1 configmap: " ++ e) ∧
    (Tectonic.Generate t deps env).1.fileList = t.fileList := by
  obtain ⟨r, b, mf⟩ := env
  simp only at h
  subst h
  exact ⟨rfl, rfl⟩

/-- C9 witness: the marshal-failure outcome at a concrete asset, dependency
set and environment. -/
theorem tectonic_generate_marshal_failure_witness :
    (Tectonic.Generate ⟨none, [⟨"old", .raw "o"⟩]⟩ ⟨"ps", "c", "mm", "mu", "wm", "wu", "addon"⟩
        ⟨fun t _ => t, fun s => s, some "yaml boom"⟩).1.fileList = [⟨"old", .raw "o"⟩] :=
  (tectonic_generate_marshal_failure ⟨none, [⟨"old", .raw "o"⟩]⟩
    ⟨"ps", "c", "mm", "mu", "wm", "wu", "addon"⟩
    ⟨fun t _ => t, fun s => s, some "yaml boom"⟩ "yaml boom" rfl).2

/-- C10: Tectonic.Load mutates the asset only on the path that reports found
with no error: whenever it reports not-found the asset is returned
unchanged, and whenever it reports found the error is nil (so every error
outcome also leaves the asset unchanged). -/
theorem tectonic_load_frame
    (t : Tectonic) (fetched : Except String (List File)) :
    ((Tectonic.Load t fetched).2.1 = false → (Tectonic.Load t fetched).1 = t) ∧
    ((Tectonic.Load t fetched).2.1 = true → (Tectonic.Load t fetched).2.2 = none) := by
  cases fetched with
  | error e => exact ⟨fun _ => rfl, fun h => by simp [Tectonic.Load] at h⟩
  | ok fl =>
    rw [Tectonic.Load]
    by_cases hl : fl.length = 0
    · rw [if_pos hl]
      exact ⟨fun _ => rfl, fun h => by simp at h⟩
    · rw [if_neg hl]
      cases hlp : tectonicLoadLoop fl none false with
      | error e => exact ⟨fun _ => rfl, fun h => by simp at h⟩
      | ok p =>
        obtain ⟨cfg, found⟩ := p
        cases found with
        | false => exact ⟨fun _ => rfl, fun h => by simp at h⟩
        | true => exact ⟨fun h => by simp at h, fun _ => rfl⟩

/-- C10 witness: a fetch error leaves a concrete asset unchanged, and the
found outcome on a one-configuration-file fetch carries a nil error. -/
theorem tectonic_load_frame_witness :
    (Tectonic.Load ⟨none, [⟨"old", .raw "o"⟩]⟩ (.error "glob failed")).1 =
      ⟨none, [⟨"old", .raw "o"⟩]⟩ ∧
    (Tectonic.Load ⟨none, []⟩
        (.ok [⟨tectonicConfigPath, .yamlCfg "tectonic-system" "cluster-config-v1" []⟩])).2.2 =
      none :=
  ⟨(tectonic_load_frame ⟨none, [⟨"old", .raw "o"⟩]⟩ (.error "glob failed")).1 rfl,
   (tectonic_load_frame ⟨none, []⟩
     (.ok [⟨tectonicConfigPath, .yamlCfg "tectonic-system" "cluster-config-v1" []⟩])).2 rfl⟩

end Installer
